import Mathlib

/-!
Verification of the weather series normalization and temporal windowing core
of the `Weather.tsx` page. The definitions below are a shallow embedding of
the inline data-transformation code of that module: JavaScript numbers are
modelled as `Rat`, a possibly-null / possibly-undefined value as `Option`,
a quantity array that may be absent as `Option (List (Option Rat))`, and the
JavaScript truthiness-based `||` fallback operator as `jsOr`.
-/

/-- A parsed timestamp, keeping exactly the components the code reads:
`getHours` is the `hour` field and `getDate` (day of month) is `day`. -/
structure Timestamp where
  year : Nat
  month : Nat
  day : Nat
  hour : Nat
deriving DecidableEq

/-- `arr?.[i]` : indexing an optional array of optional values; an absent
array, an out-of-range index and a null entry all yield `none`. -/
def jsIdx {α : Type} (arr : Option (List (Option α))) (i : Nat) : Option α :=
  match arr with
  | none => none
  | some l => l.getD i none

/-- JavaScript truthiness of a numeric value: `undefined`/`null` and `0`
are falsy. -/
def truthy : Option Rat → Bool
  | some v => v != 0
  | none => false

/-- JavaScript `a || b` on numeric-or-null values: `a` when truthy,
otherwise `b`. -/
def jsOr (a b : Option Rat) : Option Rat :=
  if truthy a then a else b

/-- The two-alias field fallback chain `rec.a?.[i] || rec.b?.[i] || dflt`
as it appears inline at every use site of the module. -/
def resolveW (a b : Option (List (Option Rat))) (i : Nat) (dflt : Option Rat) :
    Option Rat :=
  jsOr (jsIdx a i) (jsOr (jsIdx b i) dflt)

/-- `rec.a?.[i] || rec.b?.[i] || 0` : numeric two-alias resolution with
default `0`. -/
def resolve2 (a b : Option (List (Option Rat))) (i : Nat) : Rat :=
  (resolveW a b i (some 0)).getD 0

/-- `rec.a?.[i] || 0` : numeric single-alias resolution with default `0`. -/
def resolve1 (a : Option (List (Option Rat))) (i : Nat) : Rat :=
  (jsOr (jsIdx a i) (some 0)).getD 0

/-- The `hourly` section of a provider response: a `time` array that may be
absent, and one optional value array per accepted field name. -/
structure HourlyData where
  time : Option (List Timestamp)
  temperature_2m : Option (List (Option Rat)) := none
  temperature : Option (List (Option Rat)) := none
  apparent_temperature : Option (List (Option Rat)) := none
  apparentTemperature : Option (List (Option Rat)) := none
  relative_humidity_2m : Option (List (Option Rat)) := none
  humidity : Option (List (Option Rat)) := none
  wind_speed_10m : Option (List (Option Rat)) := none
  wind_speed : Option (List (Option Rat)) := none
  precipitation : Option (List (Option Rat)) := none
  precipitation_sum : Option (List (Option Rat)) := none
  precipitation_probability : Option (List (Option Rat)) := none
  weather_code : Option (List (Option Rat)) := none
deriving DecidableEq

/-- The `daily` section of a provider response. -/
structure DailyData where
  time : Option (List Timestamp)
  temperature_2m_min : Option (List (Option Rat)) := none
  temperature_2m_max : Option (List (Option Rat)) := none
  temperature_2m_mean : Option (List (Option Rat)) := none
  weather_code : Option (List (Option Rat)) := none
  wind_speed_10m : Option (List (Option Rat)) := none
  wind_speed : Option (List (Option Rat)) := none
  relative_humidity_2m : Option (List (Option Rat)) := none
  humidity : Option (List (Option Rat)) := none
  precipitation_probability_max : Option (List (Option Rat)) := none
  precipitation_sum : Option (List (Option Rat)) := none
  sunrise : Option (List (Option Timestamp)) := none
  sunset : Option (List (Option Timestamp)) := none
deriving DecidableEq

/-- A provider response: both top-level sections optional. -/
structure WeatherData where
  hourly : Option HourlyData := none
  daily : Option DailyData := none
deriving DecidableEq

/-- The weather-code to description mapping used by both the hourly
conditions card and the daily details card (identical bound chains). -/
def describeCode (code : Rat) : String :=
  if code ≤ 3 then "Clear"
  else if code ≤ 49 then "Cloudy"
  else if code ≤ 59 then "Drizzle"
  else if code ≤ 69 then "Rain"
  else if code ≤ 79 then "Snow"
  else if code ≤ 82 then "Showers"
  else if code ≤ 86 then "Snow"
  else "Thunder"

/-- The range-based icon mapping of the hourly conditions card. -/
def hourlyIcon (code : Rat) : String :=
  if code ≤ 3 then "wb_sunny"
  else if code ≤ 49 then "cloud"
  else if code ≤ 59 then "grain"
  else if code ≤ 69 then "ac_unit"
  else if code ≤ 79 then "ac_unit"
  else if code ≤ 82 then "rainy"
  else if code ≤ 86 then "ac_unit"
  else "thunderstorm"

/-- The range-based icon mapping of the daily details card. -/
def dailyIcon (code : Rat) : String :=
  if code ≤ 3 then "wb_sunny"
  else if code ≤ 49 then "cloud"
  else if code ≤ 59 then "grain"
  else if code ≤ 69 then "rainy"
  else if code ≤ 79 then "ac_unit"
  else if code ≤ 82 then "rainy"
  else if code ≤ 86 then "ac_unit"
  else "thunderstorm"

/-- The exact-match icon table of `getWeatherIcon` (daily conditions card). -/
def iconMap : List (Rat × String) :=
  [(0, "wb_sunny"), (1, "wb_sunny"), (2, "cloud"), (3, "cloud"),
   (45, "cloud"), (48, "cloud"),
   (51, "grain"), (53, "grain"), (55, "grain"),
   (61, "rainy"), (63, "rainy"), (65, "rainy"),
   (71, "ac_unit"), (73, "ac_unit"), (75, "ac_unit"), (77, "ac_unit"),
   (80, "rainy"), (81, "rainy"), (82, "rainy"),
   (85, "ac_unit"), (86, "ac_unit"),
   (95, "thunderstorm"), (96, "thunderstorm"), (99, "thunderstorm")]

/-- `iconMap[code] || 'help_outline'` (every table entry is a truthy
string, so the fallback fires exactly on a missing key). -/
def getWeatherIcon (code : Rat) : String :=
  (iconMap.lookup code).getD "help_outline"

/-- The keys of the exact-match icon table. -/
def knownCodes : List Rat := iconMap.map Prod.fst

/-- The hourly inclusion test
`time.getHours() > currentHour || time.getDate() > new Date().getDate()`:
hour-of-day and day-of-month comparison against the reference instant. -/
def afterNow (t now : Timestamp) : Bool :=
  Nat.blt now.hour t.hour || Nat.blt now.day t.day

/-- Modelled from the spec: a strictly-later full calendar date
(year, month, day lexicographically), stated only to compare the spec's
"calendar date is strictly later" wording with the code's day-of-month
test `afterNow`; it embeds no source code. -/
def calendarLaterSpec (t now : Timestamp) : Bool :=
  Nat.blt now.year t.year ||
    (now.year == t.year &&
      (Nat.blt now.month t.month ||
        (now.month == t.month && Nat.blt now.day t.day)))

/-- The shared shape of the four hourly loops: walk the timestamps in
order keeping the index `i`; on a sample passing `p`, push `f i t` and
stop as soon as `fuel` samples have been pushed (the in-loop
`if (acc.length >= limit) break` after the push). -/
def takeMatching {α : Type} (p : Timestamp → Bool) (f : Nat → Timestamp → α) :
    Nat → Nat → List Timestamp → List α
  | _, _, [] => []
  | fuel, i, t :: ts =>
    if p t then
      if fuel ≤ 1 then [f i t]
      else f i t :: takeMatching p f (fuel - 1) (i + 1) ts
    else takeMatching p f fuel (i + 1) ts

/-- One point of the hourly temperature chart. -/
structure TempSample where
  hour : Nat
  temperature : Rat
  feels_like : Option Rat
deriving DecidableEq

/-- `apparent_temperature?.[i] || apparentTemperature?.[i] || null`. -/
def feelsAt (h : HourlyData) (i : Nat) : Option Rat :=
  resolveW h.apparent_temperature h.apparentTemperature i none

/-- One row of the hourly temperature chart as built in the loop body. -/
def tempRow (h : HourlyData) (i : Nat) (t : Timestamp) : TempSample :=
  { hour := t.hour
    temperature := resolve2 h.temperature_2m h.temperature i
    feels_like := feelsAt h i }

/-- The hourly temperature chart loop: include samples passing `afterNow`,
at most 24 of them, from an optional response. -/
def windowHourlyTemp (w : Option WeatherData) (now : Timestamp) :
    List TempSample :=
  match w with
  | none => []
  | some wd =>
    match wd.hourly with
    | none => []
    | some h =>
      match h.time with
      | none => []
      | some ts => takeMatching (fun t => afterNow t now) (tempRow h) 24 0 ts

/-- One point of the hourly precipitation chart. -/
structure PrecipSample where
  hour : Nat
  probability : Rat
  amount : Rat
deriving DecidableEq

/-- One row of the hourly precipitation chart. -/
def precipRow (h : HourlyData) (i : Nat) (t : Timestamp) : PrecipSample :=
  { hour := t.hour
    probability := resolve1 h.precipitation_probability i
    amount := resolve2 h.precipitation h.precipitation_sum i }

/-- The hourly precipitation chart loop (limit 24). -/
def windowHourlyPrecip (w : Option WeatherData) (now : Timestamp) :
    List PrecipSample :=
  match w with
  | none => []
  | some wd =>
    match wd.hourly with
    | none => []
    | some h =>
      match h.time with
      | none => []
      | some ts => takeMatching (fun t => afterNow t now) (precipRow h) 24 0 ts

/-- One box of the hourly humidity-and-wind grid. -/
structure HumWindSample where
  hour : Nat
  humidity : Rat
  windSpeed : Rat
deriving DecidableEq

/-- One row of the hourly humidity-and-wind grid. -/
def humWindRow (h : HourlyData) (i : Nat) (t : Timestamp) : HumWindSample :=
  { hour := t.hour
    humidity := resolve2 h.relative_humidity_2m h.humidity i
    windSpeed := resolve2 h.wind_speed_10m h.wind_speed i }

/-- The hourly humidity-and-wind grid loop (limit 9). -/
def windowHourlyHumWind (w : Option WeatherData) (now : Timestamp) :
    List HumWindSample :=
  match w with
  | none => []
  | some wd =>
    match wd.hourly with
    | none => []
    | some h =>
      match h.time with
      | none => []
      | some ts => takeMatching (fun t => afterNow t now) (humWindRow h) 9 0 ts

/-- One box of the hourly weather-conditions grid. -/
structure CondSample where
  hour : Nat
  icon : String
  description : String
deriving DecidableEq

/-- One row of the hourly weather-conditions grid:
`weather_code?.[i] || 0`, then the range icon and description chains. -/
def condRow (h : HourlyData) (i : Nat) (t : Timestamp) : CondSample :=
  { hour := t.hour
    icon := hourlyIcon (resolve1 h.weather_code i)
    description := describeCode (resolve1 h.weather_code i) }

/-- The hourly weather-conditions grid loop (limit 9). -/
def windowHourlyConditions (w : Option WeatherData) (now : Timestamp) :
    List CondSample :=
  match w with
  | none => []
  | some wd =>
    match wd.hourly with
    | none => []
    | some h =>
      match h.time with
      | none => []
      | some ts => takeMatching (fun t => afterNow t now) (condRow h) 9 0 ts

/-- One point of the 7-day temperature forecast chart. -/
structure TempDay where
  date : Timestamp
  min : Rat
  max : Rat
  avg : Rat
deriving DecidableEq

/-- One row of the 7-day temperature chart:
`min = temperature_2m_min?.[i] || 0`, `max = temperature_2m_max?.[i] || 0`,
`avg = (min + max) / 2`. -/
def dailyTempRow (d : DailyData) (i : Nat) (date : Timestamp) : TempDay :=
  { date := date
    min := resolve1 d.temperature_2m_min i
    max := resolve1 d.temperature_2m_max i
    avg := (resolve1 d.temperature_2m_min i + resolve1 d.temperature_2m_max i) / 2 }

/-- The 7-day temperature chart map over `daily?.time || []`. -/
def windowDailyTemp (w : Option WeatherData) : List TempDay :=
  match w with
  | none => []
  | some wd =>
    match wd.daily with
    | none => []
    | some d =>
      match d.time with
      | none => []
      | some ts => ts.enum.map fun q => dailyTempRow d q.1 q.2

/-- One card of the daily weather details grid. -/
structure DailySample where
  date : Timestamp
  icon : String
  description : String
  tmin : Rat
  tmax : Rat
  windSpeed : Rat
  humidity : Rat
  precipProb : Rat
  precipSum : Rat
  sunrise : Option Timestamp
  sunset : Option Timestamp
deriving DecidableEq

/-- One row of the daily details grid; a missing sunrise/sunset renders a
placeholder, modelled as `none`. -/
def dailyDetailRow (d : DailyData) (i : Nat) (date : Timestamp) : DailySample :=
  { date := date
    icon := dailyIcon (resolve1 d.weather_code i)
    description := describeCode (resolve1 d.weather_code i)
    tmin := resolve1 d.temperature_2m_min i
    tmax := resolve1 d.temperature_2m_max i
    windSpeed := resolve2 d.wind_speed_10m d.wind_speed i
    humidity := resolve2 d.relative_humidity_2m d.humidity i
    precipProb := resolve1 d.precipitation_probability_max i
    precipSum := resolve1 d.precipitation_sum i
    sunrise := jsIdx d.sunrise i
    sunset := jsIdx d.sunset i }

/-- The daily weather details map over `daily?.time || []`. -/
def windowDailyDetails (w : Option WeatherData) : List DailySample :=
  match w with
  | none => []
  | some wd =>
    match wd.daily with
    | none => []
    | some d =>
      match d.time with
      | none => []
      | some ts => ts.enum.map fun q => dailyDetailRow d q.1 q.2

/-- One card of the daily wind-and-conditions grid (the one card that uses
`weather_code?.[i] ?? 0` and the exact-match `getWeatherIcon` table). -/
structure WindCard where
  date : Timestamp
  icon : String
  windSpeed : Rat
deriving DecidableEq

/-- One row of the daily wind-and-conditions grid. -/
def windCardRow (d : DailyData) (i : Nat) (date : Timestamp) : WindCard :=
  { date := date
    icon := getWeatherIcon ((jsIdx d.weather_code i).getD 0)
    windSpeed := resolve2 d.wind_speed_10m d.wind_speed i }

/-- The daily wind-and-conditions grid map over `daily.time`. -/
def windowDailyWindCards (w : Option WeatherData) : List WindCard :=
  match w with
  | none => []
  | some wd =>
    match wd.daily with
    | none => []
    | some d =>
      match d.time with
      | none => []
      | some ts => ts.enum.map fun q => windCardRow d q.1 q.2

/-- One point of the historical chart. -/
structure HistPoint where
  date : Timestamp
  temperature : Rat
  precipitation : Rat
deriving DecidableEq

/-- The historical per-day temperature fallback chain
`temperature_2m_min?.[i] || temperature_2m_mean?.[i] ||
temperature_2m_max?.[i] || 0`. -/
def histTempAt (d : DailyData) (i : Nat) : Rat :=
  (jsOr (jsIdx d.temperature_2m_min i)
    (jsOr (jsIdx d.temperature_2m_mean i)
      (jsOr (jsIdx d.temperature_2m_max i) (some 0)))).getD 0

/-- `formatHistoricalChartData`: empty on a null response or missing
`daily`, otherwise a map over `daily.time || []`. -/
def formatHistoricalChartData (w : Option WeatherData) : List HistPoint :=
  match w with
  | none => []
  | some wd =>
    match wd.daily with
    | none => []
    | some d =>
      match d.time with
      | none => []
      | some ts => ts.enum.map fun q =>
        { date := q.2
          temperature := histTempAt d q.1
          precipitation := resolve1 d.precipitation_sum q.1 }

/-! ### Helper lemmas -/

/-- The loop shape `takeMatching` equals filtering the enumerated input by
the predicate, mapping the row builder, and truncating to the limit
(for any positive limit). -/
theorem takeMatching_eq {α : Type} (p : Timestamp → Bool) (f : Nat → Timestamp → α) :
    ∀ (ts : List Timestamp) (fuel i : Nat), 1 ≤ fuel →
      takeMatching p f fuel i ts =
        (((List.enumFrom i ts).filter fun q => p q.2).map fun q => f q.1 q.2).take fuel := by
  intro ts
  induction ts with
  | nil => intro fuel i h; simp [takeMatching, List.enumFrom]
  | cons t ts ih =>
    intro fuel i h
    by_cases hp : p t
    · by_cases h1 : fuel ≤ 1
      · have hf : fuel = 1 := Nat.le_antisymm h1 h
        subst hf
        simp [takeMatching, hp, List.enumFrom]
      · have h2 : 1 ≤ fuel - 1 := by omega
        have h0 : 0 < fuel := by omega
        simp only [takeMatching, hp, if_true, if_neg h1, List.enumFrom,
          List.filter_cons, List.map_cons]
        rw [List.take_cons h0, ih (fuel - 1) (i + 1) h2]
    · simp only [takeMatching, hp, if_false, List.enumFrom, List.filter_cons,
        List.map_cons]
      exact ih fuel (i + 1) h

/-- Unfolding of the hourly temperature window on a present time array. -/
theorem windowHourlyTemp_eq (h : HourlyData) (dl : Option DailyData)
    (ts : List Timestamp) (now : Timestamp) (hts : h.time = some ts) :
    windowHourlyTemp (some { hourly := some h, daily := dl }) now =
      ((ts.enum.filter fun q => afterNow q.2 now).map fun q => tempRow h q.1 q.2).take 24 := by
  simp only [windowHourlyTemp, hts]
  rw [takeMatching_eq _ _ ts 24 0 (by omega), List.enum]

/-- The hourly temperature window never holds more than 24 samples. -/
theorem windowHourlyTemp_length_le (w : Option WeatherData) (now : Timestamp) :
    (windowHourlyTemp w now).length ≤ 24 := by
  cases w with
  | none => simp [windowHourlyTemp]
  | some wd =>
    obtain ⟨ho, da⟩ := wd
    cases ho with
    | none => simp [windowHourlyTemp]
    | some h =>
      cases hts : h.time with
      | none => simp [windowHourlyTemp, hts]
      | some ts =>
        rw [windowHourlyTemp_eq h da ts now hts]
        simp [List.length_take]

/-! ### Claims -/

/-- Claim C1, counterexample: on a day where only `temperature_2m_max = 20`
is populated, the derived mean is `(0 + 20) / 2 = 10`, not the lone
resolvable bound `20` demanded by the claim. -/
theorem C1_counterexample :
    (windowDailyTemp (some { daily := some { time := some [⟨2024, 1, 1, 0⟩], temperature_2m_max := some [some 20] } })).map TempDay.avg = [10] ∧
    (10 : Rat) ≠ 20 := by
  refine ⟨?_, by norm_num⟩
  simp [windowDailyTemp, dailyTempRow, resolve1, jsIdx, jsOr, truthy, List.enum, List.enumFrom]
  norm_num

/-- Claim C1 (amended): per day the derived mean is always
`(min + max) / 2` where an unresolvable (or zero-valued) bound is replaced
by `0` by the `|| 0` fallback; so `min = 10, max = 20` gives `15`, but a
day with only `max` resolvable gives `max / 2` (e.g. only `max = 20` gives
`10`, not `20`), and a day with neither bound gives `0`. -/
theorem C1_theorem :
    ∀ (d : DailyData) (ts : List Timestamp) (i : Nat) (date : Timestamp)
      (ho : Option HourlyData),
      d.time = some ts → ts[i]? = some date →
      ((windowDailyTemp (some { hourly := ho, daily := some d }))[i]? =
          some (dailyTempRow d i date) ∧
        (dailyTempRow d i date).avg =
          (resolve1 d.temperature_2m_min i + resolve1 d.temperature_2m_max i) / 2 ∧
        (jsIdx d.temperature_2m_min i = none →
          (dailyTempRow d i date).avg = resolve1 d.temperature_2m_max i / 2) ∧
        (jsIdx d.temperature_2m_min i = none → jsIdx d.temperature_2m_max i = none →
          (dailyTempRow d i date).avg = 0) ∧
        (∀ mn mx : Rat, jsIdx d.temperature_2m_min i = some mn → mn ≠ 0 →
          jsIdx d.temperature_2m_max i = some mx → mx ≠ 0 →
          (dailyTempRow d i date).avg = (mn + mx) / 2)) := by
  intro d ts i date ho hts hi
  refine ⟨?_, rfl, ?_, ?_, ?_⟩
  · simp [windowDailyTemp, hts, List.getElem?_map, List.getElem?_enum, hi]
  · intro hmin
    simp [dailyTempRow, resolve1, jsOr, truthy, hmin]
  · intro hmin hmax
    simp [dailyTempRow, resolve1, jsOr, truthy, hmin, hmax]
  · intro mn mx h1 hn1 h2 hn2
    simp [dailyTempRow, resolve1, jsOr, truthy, h1, h2, bne_iff_ne, hn1, hn2]

/-- Claim C1, witness: instantiating the amended claim on a concrete day
with `min = 10`, `max = 20` yields mean `(10 + 20) / 2`. -/
theorem C1_witness :
    (dailyTempRow { time := some [⟨2024, 1, 1, 0⟩], temperature_2m_min := some [some 10], temperature_2m_max := some [some 20] } 0 ⟨2024, 1, 1, 0⟩).avg = ((10 : Rat) + 20) / 2 :=
  (C1_theorem { time := some [⟨2024, 1, 1, 0⟩], temperature_2m_min := some [some 10], temperature_2m_max := some [some 20] }
    [⟨2024, 1, 1, 0⟩] 0 ⟨2024, 1, 1, 0⟩ none rfl rfl).2.2.2.2
    10 20 rfl (by decide) rfl (by decide)

/-- Claim C2, counterexample: with the highest-priority alias populated by
the present, non-null value `0` and the lower-priority alias holding `5`,
the resolver returns `5`, not the highest-priority value `0` demanded by
the claim. -/
theorem C2_counterexample :
    resolve2 (some [some 0]) (some [some 5]) 0 = 5 ∧
    jsIdx (some [(some 0 : Option Rat)]) 0 = some 0 ∧
    (5 : Rat) ≠ 0 := by
  decide

/-- Claim C2 (amended): the resolver returns the value of the
highest-priority alias whose entry is present, non-null and non-zero; a
present value of `0` is falsy under `||` and falls through exactly like a
missing entry, and when no alias yields a truthy value the caller-supplied
default is returned. -/
theorem C2_theorem :
    ∀ (a b : Option (List (Option Rat))) (i : Nat) (dflt : Option Rat),
      (∀ v : Rat, jsIdx a i = some v → v ≠ 0 → resolveW a b i dflt = some v) ∧
      (truthy (jsIdx a i) = false →
        ∀ v : Rat, jsIdx b i = some v → v ≠ 0 → resolveW a b i dflt = some v) ∧
      (truthy (jsIdx a i) = false → truthy (jsIdx b i) = false →
        resolveW a b i dflt = dflt) ∧
      (jsIdx a i = some 0 → truthy (jsIdx a i) = false) := by
  intro a b i dflt
  refine ⟨?_, ?_, ?_, ?_⟩
  · intro v hv hvne
    simp [resolveW, jsOr, truthy, hv, bne_iff_ne, hvne]
  · intro hfa v hv hvne
    unfold resolveW jsOr
    rw [hfa]
    simp [truthy, hv, bne_iff_ne, hvne]
  · intro hfa hfb
    simp [resolveW, jsOr, hfa, hfb]
  · intro h0
    simp [truthy, h0]

/-- Claim C2, witness: a nonzero highest-priority value is returned. -/
theorem C2_witness : resolveW (some [some 7]) none 0 (some 0) = some 7 :=
  (C2_theorem (some [some 7]) none 0 (some 0)).1 7 rfl (by decide)

/-- Claim C3, counterexample: a sample whose full calendar date
(2024-02-01) is strictly later than the reference date (2024-01-15) is
nevertheless excluded, because the code compares only hour-of-day and
day-of-month (3 > 5 is false, 1 > 15 is false). -/
theorem C3_counterexample :
    calendarLaterSpec ⟨2024, 2, 1, 3⟩ ⟨2024, 1, 15, 5⟩ = true ∧
    windowHourlyTemp (some { hourly := some { time := some [⟨2024, 2, 1, 3⟩], temperature_2m := some [some 1] }, daily := none }) ⟨2024, 1, 15, 5⟩ = [] := by
  decide

/-- Claim C3 (amended): hourly windowing includes sample `i` iff its
hour-of-day is strictly greater than the reference hour-of-day or its
day-of-month is strictly greater than the reference day-of-month (the
full calendar date is not compared), up to the 24-sample limit; on
`hourly.time = [05:00, 06:00, 07:00]` of the reference day with reference
hour 5, the output is exactly the 06:00 and 07:00 samples, in order. -/
theorem C3_theorem :
    ∀ (h : HourlyData) (ts : List Timestamp) (now : Timestamp) (dl : Option DailyData),
      h.time = some ts →
      (windowHourlyTemp (some { hourly := some h, daily := dl }) now =
          ((ts.enum.filter fun q => afterNow q.2 now).map fun q => tempRow h q.1 q.2).take 24 ∧
        (∀ t : Timestamp, afterNow t now = true ↔ now.hour < t.hour ∨ now.day < t.day) ∧
        (windowHourlyTemp (some { hourly := some { time := some [⟨2024, 1, 1, 5⟩, ⟨2024, 1, 1, 6⟩, ⟨2024, 1, 1, 7⟩] }, daily := none }) ⟨2024, 1, 1, 5⟩).map TempSample.hour = [6, 7]) := by
  intro h ts now dl hts
  refine ⟨windowHourlyTemp_eq h dl ts now hts, ?_, ?_⟩
  · intro t
    simp [afterNow, Nat.blt_eq]
  · decide

/-- Claim C3, witness: the amended claim instantiated on the concrete
three-sample scenario yields exactly the 06:00 and 07:00 samples. -/
theorem C3_witness :
    (windowHourlyTemp (some { hourly := some { time := some [⟨2024, 1, 1, 5⟩, ⟨2024, 1, 1, 6⟩, ⟨2024, 1, 1, 7⟩] }, daily := none }) ⟨2024, 1, 1, 5⟩).map TempSample.hour = [6, 7] :=
  (C3_theorem { time := some [⟨2024, 1, 1, 5⟩, ⟨2024, 1, 1, 6⟩, ⟨2024, 1, 1, 7⟩] }
    [⟨2024, 1, 1, 5⟩, ⟨2024, 1, 1, 6⟩, ⟨2024, 1, 1, 7⟩] ⟨2024, 1, 1, 5⟩ none rfl).2.2

/-- A key absent from an association list looks up to `none`. -/
theorem lookup_eq_none_of_not_mem {β : Type} (c : Rat) :
    ∀ l : List (Rat × β), c ∉ l.map Prod.fst → l.lookup c = none := by
  intro l
  induction l with
  | nil => intro _; rfl
  | cons p l ih =>
    obtain ⟨k, v⟩ := p
    intro h
    simp only [List.map_cons, List.mem_cons, not_or] at h
    obtain ⟨h1, h2⟩ := h
    have hb : (c == k) = false := beq_eq_false_iff_ne.mpr h1
    simp [List.lookup, hb, ih h2]

/-- Claim C4, counterexample: on the known code `2` the exact-match table
returns the cloud icon while the range table classifies it Clear with the
sunny icon, so the two tables do not agree on all known codes; moreover a
code outside both tables (100) classifies as Thunder under the range
table, not as Unknown. -/
theorem C4_counterexample :
    getWeatherIcon 2 = "cloud" ∧ dailyIcon 2 = "wb_sunny" ∧
    hourlyIcon 2 = "wb_sunny" ∧ describeCode 2 = "Clear" ∧
    ("cloud" : String) ≠ "wb_sunny" ∧
    describeCode 100 = "Thunder" ∧ getWeatherIcon 100 = "help_outline" ∧
    ("Thunder" : String) ≠ "Unknown" := by
  decide

/-- Claim C4 (amended): the classifier is total and deterministic (every
code yields exactly one description); the exact-match table agrees with
the daily range-table icons on every known code except `2` and `3` (where
the exact table gives `cloud` but the range classifies Clear/`wb_sunny`),
and with the hourly range-table icons except additionally on the rain
codes `61`, `63`, `65` (exact `rainy`, hourly range `ac_unit`); a code
outside the exact table gets the `help_outline` icon from
`getWeatherIcon`, but under the range table it classifies as an ordinary
category (e.g. `100` is Thunder), never Unknown; `classify 0 = Clear`,
`classify 61 = Rain`, `classify 95 = Thunder`. -/
theorem C4_theorem :
    (∀ c : Rat, ∃! s : String, describeCode c = s) ∧
    (∀ c ∈ knownCodes, c ≠ 2 → c ≠ 3 → dailyIcon c = getWeatherIcon c) ∧
    getWeatherIcon 2 = "cloud" ∧ dailyIcon 2 = "wb_sunny" ∧
    getWeatherIcon 3 = "cloud" ∧ dailyIcon 3 = "wb_sunny" ∧
    (∀ c ∈ knownCodes, c ≠ 2 → c ≠ 3 → c ≠ 61 → c ≠ 63 → c ≠ 65 →
      hourlyIcon c = getWeatherIcon c) ∧
    (∀ c : Rat, c ∉ knownCodes → getWeatherIcon c = "help_outline") ∧
    describeCode 100 = "Thunder" ∧
    describeCode 0 = "Clear" ∧ describeCode 61 = "Rain" ∧
    describeCode 95 = "Thunder" := by
  refine ⟨?_, ?_, by decide, by decide, by decide, by decide, ?_, ?_,
    by decide, by decide, by decide, by decide⟩
  · intro c
    exact ⟨describeCode c, rfl, fun y hy => hy.symm⟩
  · intro c hc h2 h3
    have hc' : c ∈ ([0, 1, 2, 3, 45, 48, 51, 53, 55, 61, 63, 65, 71, 73, 75, 77, 80, 81, 82, 85, 86, 95, 96, 99] : List Rat) := by
      simpa [knownCodes, iconMap] using hc
    fin_cases hc' <;> first | exact absurd rfl h2 | exact absurd rfl h3 | decide
  · intro c hc h2 h3 h61 h63 h65
    have hc' : c ∈ ([0, 1, 2, 3, 45, 48, 51, 53, 55, 61, 63, 65, 71, 73, 75, 77, 80, 81, 82, 85, 86, 95, 96, 99] : List Rat) := by
      simpa [knownCodes, iconMap] using hc
    fin_cases hc' <;> first
      | exact absurd rfl h2 | exact absurd rfl h3
      | exact absurd rfl h61 | exact absurd rfl h63 | exact absurd rfl h65
      | decide
  · intro c hc
    have h := lookup_eq_none_of_not_mem c iconMap (by simpa [knownCodes] using hc)
    simp [getWeatherIcon, h]

/-- Claim C4, witness: the agreement clause of the amended claim applied
to the known code `45`, and the out-of-table clause applied to `100`. -/
theorem C4_witness :
    dailyIcon 45 = getWeatherIcon 45 ∧ getWeatherIcon 100 = "help_outline" :=
  ⟨C4_theorem.2.1 45 (by decide) (by decide) (by decide),
   C4_theorem.2.2.2.2.2.2.2.1 100 (by decide)⟩

/-- Claim C5, counterexample: a day with no weather code resolves to code
`0`, which the classifier maps to Clear, so a missing weather code does
not yield the Unknown condition. -/
theorem C5_counterexample :
    (windowDailyDetails (some { daily := some { time := some [⟨2024, 1, 1, 0⟩] } })).map DailySample.description = ["Clear"] ∧
    (windowDailyDetails (some { daily := some { time := some [⟨2024, 1, 1, 0⟩] } })).map DailySample.icon = ["wb_sunny"] ∧
    ("Clear" : String) ≠ "Unknown" := by
  decide

/-- Claim C5 (amended): an unresolvable datum always degrades to a
default and never to an error: `0` for numeric magnitudes, `null` for the
feels-like display field, and an empty sequence for a wholly missing
collection; but a missing weather code defaults to the numeric code `0`
and therefore classifies as Clear with the sunny icon, not as Unknown. -/
theorem C5_theorem :
    ∀ (h : HourlyData) (d : DailyData) (now : Timestamp) (i : Nat),
      (jsIdx h.temperature_2m i = none → jsIdx h.temperature i = none →
        resolve2 h.temperature_2m h.temperature i = 0) ∧
      (jsIdx h.relative_humidity_2m i = none → jsIdx h.humidity i = none →
        resolve2 h.relative_humidity_2m h.humidity i = 0) ∧
      (jsIdx h.apparent_temperature i = none → jsIdx h.apparentTemperature i = none →
        feelsAt h i = none) ∧
      (jsIdx d.weather_code i = none →
        resolve1 d.weather_code i = 0 ∧
        describeCode (resolve1 d.weather_code i) = "Clear" ∧
        describeCode (resolve1 d.weather_code i) ≠ "Unknown") ∧
      (d.time = none → windowDailyDetails (some { hourly := some h, daily := some d }) = []) ∧
      formatHistoricalChartData (some { hourly := some h, daily := none }) = [] ∧
      windowHourlyTemp none now = [] := by
  intro h d now i
  refine ⟨?_, ?_, ?_, ?_, ?_, rfl, rfl⟩
  · intro ha hb
    simp [resolve2, resolveW, jsOr, truthy, ha, hb]
  · intro ha hb
    simp [resolve2, resolveW, jsOr, truthy, ha, hb]
  · intro ha hb
    simp [feelsAt, resolveW, jsOr, truthy, ha, hb]
  · intro ha
    refine ⟨?_, ?_, ?_⟩ <;> simp [resolve1, jsOr, truthy, ha, describeCode]
  · intro ht
    simp [windowDailyDetails, ht]

/-- Claim C5, witness: the amended claim instantiated on records with no
populated aliases at index 0. -/
theorem C5_witness : resolve2 none none 0 = 0 :=
  (C5_theorem { time := none } { time := none } ⟨2024, 1, 1, 0⟩ 0).1 rfl rfl

/-- Claim C6 (confirmed): the hourly window never exceeds 24 samples, it
equals the first 24 elements of the input filtered by the after-now
predicate in input order (so accumulation stops at the limit or at the
end of the input), every returned sample arises from an input sample
satisfying the predicate, and the output is a sublist of the full
in-order row sequence. -/
theorem C6_theorem :
    ∀ (hd : HourlyData) (dl : Option DailyData) (ts : List Timestamp)
      (now : Timestamp) (w : Option WeatherData),
      w = some { hourly := some hd, daily := dl } → hd.time = some ts →
      ((∀ w' : Option WeatherData, (windowHourlyTemp w' now).length ≤ 24) ∧
        windowHourlyTemp w now =
          ((ts.enum.filter fun q => afterNow q.2 now).map fun q => tempRow hd q.1 q.2).take 24 ∧
        (∀ s ∈ windowHourlyTemp w now,
          ∃ q ∈ ts.enum, afterNow q.2 now = true ∧ s = tempRow hd q.1 q.2) ∧
        List.Sublist (windowHourlyTemp w now) (ts.enum.map fun q => tempRow hd q.1 q.2)) := by
  intro hd dl ts now w hw hts
  subst hw
  have heq := windowHourlyTemp_eq hd dl ts now hts
  refine ⟨fun w' => windowHourlyTemp_length_le w' now, heq, ?_, ?_⟩
  · intro s hs
    rw [heq] at hs
    have hs' : s ∈ (ts.enum.filter fun q => afterNow q.2 now).map fun q => tempRow hd q.1 q.2 :=
      List.mem_of_mem_take hs
    obtain ⟨q, hq, rfl⟩ := List.mem_map.1 hs'
    obtain ⟨hq1, hq2⟩ := List.mem_filter.1 hq
    exact ⟨q, hq1, hq2, rfl⟩
  · rw [heq]
    exact (List.take_sublist _ _).trans ((List.filter_sublist _).map _)

/-- Claim C6, witness: the uniform 24-sample bound applied to the empty
response. -/
theorem C6_witness : (windowHourlyTemp none ⟨2024, 1, 1, 0⟩).length ≤ 24 :=
  (C6_theorem { time := some [] } none [] ⟨2024, 1, 1, 0⟩
    (some { hourly := some { time := some [] }, daily := none }) rfl rfl).1 none

/-- Claim C7, counterexample: a day whose minimum is populated with the
present, non-null value `0` and whose mean is `18` yields temperature
`18`, not the first-populated minimum `0` demanded by the claim. -/
theorem C7_counterexample :
    (formatHistoricalChartData (some { daily := some { time := some [⟨2024, 1, 1, 0⟩], temperature_2m_min := some [some 0], temperature_2m_mean := some [some 18] } })).map HistPoint.temperature = [18] ∧
    jsIdx ((some [some 0] : Option (List (Option Rat)))) 0 = some 0 ∧
    (18 : Rat) ≠ 0 := by
  decide

/-- Claim C7 (amended): `formatHistorical` resolves the day's temperature
by the fallback minimum, then mean, then maximum, then `0`, where the
first alias holding a truthy (present, non-null, non-zero) value wins and
a populated value of `0` falls through like a missing one; a day with
only `temperature_2m_mean = 18` populated yields temperature `18`, a day
with none of min/mean/max populated yields `0`, and an absent daily
bundle yields an empty sequence. -/
theorem C7_theorem :
    ∀ (d : DailyData) (i : Nat) (ho : Option HourlyData),
      (∀ v : Rat, jsIdx d.temperature_2m_min i = some v → v ≠ 0 →
        histTempAt d i = v) ∧
      (truthy (jsIdx d.temperature_2m_min i) = false →
        ∀ v : Rat, jsIdx d.temperature_2m_mean i = some v → v ≠ 0 →
          histTempAt d i = v) ∧
      (truthy (jsIdx d.temperature_2m_min i) = false →
        truthy (jsIdx d.temperature_2m_mean i) = false →
        ∀ v : Rat, jsIdx d.temperature_2m_max i = some v → v ≠ 0 →
          histTempAt d i = v) ∧
      (truthy (jsIdx d.temperature_2m_min i) = false →
        truthy (jsIdx d.temperature_2m_mean i) = false →
        truthy (jsIdx d.temperature_2m_max i) = false → histTempAt d i = 0) ∧
      formatHistoricalChartData none = [] ∧
      formatHistoricalChartData (some { hourly := ho, daily := none }) = [] ∧
      (∀ (ts : List Timestamp) (date : Timestamp),
        d.time = some ts → ts[i]? = some date →
        (formatHistoricalChartData (some { hourly := ho, daily := some d }))[i]? =
          some ⟨date, histTempAt d i, resolve1 d.precipitation_sum i⟩) := by
  intro d i ho
  refine ⟨?_, ?_, ?_, ?_, rfl, rfl, ?_⟩
  · intro v hv hne
    simp [histTempAt, jsOr, truthy, hv, bne_iff_ne, hne]
  · intro hfa v hv hne
    unfold histTempAt jsOr
    rw [hfa]
    simp [truthy, hv, bne_iff_ne, hne]
  · intro hfa hfb v hv hne
    unfold histTempAt jsOr
    rw [hfa, hfb]
    simp [truthy, hv, bne_iff_ne, hne]
  · intro hfa hfb hfc
    unfold histTempAt jsOr
    rw [hfa, hfb, hfc]
    simp
  · intro ts date hts hi
    simp [formatHistoricalChartData, hts, List.getElem?_map, List.getElem?_enum, hi]

/-- Claim C7, witness: the amended fallback applied to a day where only
the mean (18) is populated. -/
theorem C7_witness :
    histTempAt { time := none, temperature_2m_mean := some [some 18] } 0 = 18 :=
  (C7_theorem { time := none, temperature_2m_mean := some [some 18] } 0 none).2.1
    rfl 18 rfl (by decide)

/-- Claim C8 (confirmed): all three operations are total functions into
plain lists (the embedding mirrors the `?.`/`||` guards, under which no
exception can arise), and a null response, an absent section, an absent
time array or an empty time array each produce an empty output
sequence. -/
theorem C8_theorem :
    ∀ (w : Option WeatherData) (now : Timestamp) (h : HourlyData)
      (d : DailyData) (dl : Option DailyData) (ho : Option HourlyData),
      windowHourlyTemp none now = [] ∧
      windowDailyTemp none = [] ∧
      formatHistoricalChartData none = [] ∧
      windowHourlyTemp (some { hourly := none, daily := dl }) now = [] ∧
      (h.time = none → windowHourlyTemp (some { hourly := some h, daily := dl }) now = []) ∧
      (h.time = some [] → windowHourlyTemp (some { hourly := some h, daily := dl }) now = []) ∧
      windowDailyTemp (some { hourly := ho, daily := none }) = [] ∧
      (d.time = none → windowDailyTemp (some { hourly := ho, daily := some d }) = []) ∧
      (d.time = some [] → windowDailyTemp (some { hourly := ho, daily := some d }) = []) ∧
      formatHistoricalChartData (some { hourly := ho, daily := none }) = [] ∧
      (d.time = none → formatHistoricalChartData (some { hourly := ho, daily := some d }) = []) ∧
      (d.time = some [] → formatHistoricalChartData (some { hourly := ho, daily := some d }) = []) ∧
      (∃ out : List TempSample, windowHourlyTemp w now = out) ∧
      (∃ out : List TempDay, windowDailyTemp w = out) ∧
      (∃ out : List HistPoint, formatHistoricalChartData w = out) := by
  intro w now h d dl ho
  refine ⟨rfl, rfl, rfl, rfl, ?_, ?_, rfl, ?_, ?_, rfl, ?_, ?_,
    ⟨_, rfl⟩, ⟨_, rfl⟩, ⟨_, rfl⟩⟩
  all_goals intro ht
  all_goals simp [windowHourlyTemp, windowDailyTemp, formatHistoricalChartData,
    ht, takeMatching]

/-- Claim C8, witness: the null response yields an empty hourly window. -/
theorem C8_witness : windowHourlyTemp none ⟨2024, 1, 1, 0⟩ = [] :=
  (C8_theorem none ⟨2024, 1, 1, 0⟩ { time := none } { time := none } none none).1

/-- Claim C9 (confirmed): the hourly window is never longer than the
input time array, each of its samples is built from an input sample, and
it is a sublist of the in-order full row sequence; the daily window has
exactly one sample per entry of the daily time array, the `i`-th output
built from the `i`-th input entry, with no cap. -/
theorem C9_theorem :
    ∀ (hd : HourlyData) (d : DailyData) (tsH tsD : List Timestamp) (now : Timestamp),
      hd.time = some tsH → d.time = some tsD →
      ((windowHourlyTemp (some { hourly := some hd, daily := some d }) now).length ≤ tsH.length ∧
        (∀ s ∈ windowHourlyTemp (some { hourly := some hd, daily := some d }) now,
          ∃ q ∈ tsH.enum, s = tempRow hd q.1 q.2) ∧
        List.Sublist (windowHourlyTemp (some { hourly := some hd, daily := some d }) now)
          (tsH.enum.map fun q => tempRow hd q.1 q.2) ∧
        (windowDailyTemp (some { hourly := some hd, daily := some d })).length = tsD.length ∧
        (∀ i : Nat, (windowDailyTemp (some { hourly := some hd, daily := some d }))[i]? =
          (tsD[i]?).map fun date => dailyTempRow d i date)) := by
  intro hd d tsH tsD now hts hdts
  have heq := windowHourlyTemp_eq hd (some d) tsH now hts
  refine ⟨?_, ?_, ?_, ?_, ?_⟩
  · rw [heq, List.length_take]
    have h1 : ((tsH.enum.filter fun q => afterNow q.2 now).map fun q => tempRow hd q.1 q.2).length ≤ tsH.length := by
      rw [List.length_map]
      calc (tsH.enum.filter fun q => afterNow q.2 now).length
          ≤ tsH.enum.length := List.length_filter_le _ _
        _ = tsH.length := List.enum_length
    exact le_trans (Nat.min_le_right _ _) h1
  · intro s hs
    rw [heq] at hs
    have hs' : s ∈ (tsH.enum.filter fun q => afterNow q.2 now).map fun q => tempRow hd q.1 q.2 :=
      List.mem_of_mem_take hs
    obtain ⟨q, hq, rfl⟩ := List.mem_map.1 hs'
    obtain ⟨hq1, _⟩ := List.mem_filter.1 hq
    exact ⟨q, hq1, rfl⟩
  · rw [heq]
    exact (List.take_sublist _ _).trans ((List.filter_sublist _).map _)
  · simp [windowDailyTemp, hdts, List.length_map, List.enum_length]
  · intro i
    cases hq : tsD[i]? <;>
      simp [windowDailyTemp, hdts, List.getElem?_map, List.getElem?_enum, hq]

/-- Claim C9, witness: the length bound on an empty time array. -/
theorem C9_witness :
    (windowHourlyTemp (some { hourly := some { time := some [] }, daily := some { time := some [] } }) ⟨2024, 1, 1, 0⟩).length ≤ ([] : List Timestamp).length :=
  (C9_theorem { time := some [] } { time := some [] } [] [] ⟨2024, 1, 1, 0⟩ rfl rfl).1

/-- Claim C10, counterexample: a feels-like alias populated with the
present, non-null value `0` produces `feelsLike = null`, exactly the same
output as when no alias is populated, so the missing datum is not
distinguishable from a resolved value of zero. -/
theorem C10_counterexample :
    feelsAt { time := none, apparent_temperature := some [some 0] } 0 = none ∧
    feelsAt { time := none } 0 = none := by
  decide

/-- Claim C10 (amended): when no feels-like alias resolves, `feelsLike`
is `null` rather than `0`, while temperature, humidity, wind speed and
precipitation default to `0` in the same situation, and a nonzero
feels-like value is passed through; however a resolved feels-like value
of exactly `0` also maps to `null`, so `null` does not distinguish a
missing feels-like datum from a resolved zero. -/
theorem C10_theorem :
    ∀ (h : HourlyData) (i : Nat),
      (jsIdx h.apparent_temperature i = none → jsIdx h.apparentTemperature i = none →
        feelsAt h i = none) ∧
      (jsIdx h.apparent_temperature i = some 0 → jsIdx h.apparentTemperature i = none →
        feelsAt h i = none) ∧
      (∀ v : Rat, jsIdx h.apparent_temperature i = some v → v ≠ 0 →
        feelsAt h i = some v) ∧
      (jsIdx h.temperature_2m i = none → jsIdx h.temperature i = none →
        resolve2 h.temperature_2m h.temperature i = 0) ∧
      (jsIdx h.relative_humidity_2m i = none → jsIdx h.humidity i = none →
        resolve2 h.relative_humidity_2m h.humidity i = 0) ∧
      (jsIdx h.wind_speed_10m i = none → jsIdx h.wind_speed i = none →
        resolve2 h.wind_speed_10m h.wind_speed i = 0) ∧
      (jsIdx h.precipitation i = none → jsIdx h.precipitation_sum i = none →
        resolve2 h.precipitation h.precipitation_sum i = 0) ∧
      (jsIdx h.precipitation_probability i = none →
        resolve1 h.precipitation_probability i = 0) := by
  intro h i
  refine ⟨?_, ?_, ?_, ?_, ?_, ?_, ?_, ?_⟩
  · intro ha hb
    simp [feelsAt, resolveW, jsOr, truthy, ha, hb]
  · intro ha hb
    simp [feelsAt, resolveW, jsOr, truthy, ha, hb]
  · intro v hv hne
    simp [feelsAt, resolveW, jsOr, truthy, hv, bne_iff_ne, hne]
  · intro ha hb
    simp [resolve2, resolveW, jsOr, truthy, ha, hb]
  · intro ha hb
    simp [resolve2, resolveW, jsOr, truthy, ha, hb]
  · intro ha hb
    simp [resolve2, resolveW, jsOr, truthy, ha, hb]
  · intro ha hb
    simp [resolve2, resolveW, jsOr, truthy, ha, hb]
  · intro ha
    simp [resolve1, jsOr, truthy, ha]

/-- Claim C10, witness: the missing-aliases case yields `null`. -/
theorem C10_witness : feelsAt { time := none } 0 = none :=
  (C10_theorem { time := none } 0).1 rfl rfl
